import Mathlib

/-!
Verification of the Streamlit chat front-end in `src/app.py` against its
natural-language specification.

The source is a thin client driving a remote run-based messaging API:
`ensure_thread` lazily creates a thread, `ask_agent` posts a message,
starts a run, polls until the run leaves the transient statuses,
then extracts the newest assistant reply; a prompt handler appends
history turns and catches all exceptions; a reset button clears state;
configuration is resolved from environment or secrets at startup.

The remote service is modelled as a per-turn script of responses
(each operation may succeed or fail, mirroring raised SDK exceptions),
and every remote call is recorded in an event log so that call-count
properties (exactly-once thread creation, no retries) can be stated.
The unbounded polling loop is modelled with explicit fuel.
-/

namespace StreamliApp

/-- A remote-call failure, mirroring the exception classes caught in the
prompt handler: `ClientAuthenticationError`, `HttpResponseError`, and
any other `Exception`. -/
inductive RemoteError where
  | auth (msg : String)
  | http (msg : String)
  | other (msg : String)
deriving DecidableEq, Repr

/-- One content part of a remote message; `text` models `c.text.value`. -/
structure ContentPart where
  type : String
  text : String
deriving DecidableEq, Repr

/-- A remote message as returned by `messages.list`. -/
structure RMessage where
  role : String
  content : List ContentPart
deriving DecidableEq, Repr

/-- A run object as returned by `runs.create` and `runs.get`:
only the fields the driver reads. -/
structure RunState where
  id : String
  status : String
deriving DecidableEq, Repr

/-- The scripted behaviour of the remote service for one `ask_agent`
call: what each remote operation returns (or the exception it raises).
`getRunResults k` is the status returned by the k-th `runs.get` call
of the polling loop. -/
structure TurnScript where
  createThreadResult : Except RemoteError String
  createMessageResult : Except RemoteError Unit
  createRunResult : Except RemoteError RunState
  getRunResults : Nat → Except RemoteError String
  listMessagesResult : Except RemoteError (List RMessage)

/-- The process-local session state: `st.session_state.thread_id` and
`st.session_state.history` (a list of (speaker, text) pairs). -/
structure SessionState where
  thread_id : Option String
  history : List (String × String)
deriving DecidableEq, Repr

/-- A remote call (or sleep) performed by the driver, recorded in order. -/
inductive REvent where
  | createThread
  | createMessage (threadId : String) (role : String) (content : String)
  | createRun (threadId : String) (agentId : String)
  | sleep (interval : ℚ)
  | getRun (threadId : String) (runId : String)
  | listMessages (threadId : String) (order : String)
deriving DecidableEq, Repr

/-- The outcome of one `ask_agent` call: a returned reply string, a
raised exception, or divergence (the fuel bound on the unbounded
polling loop was exhausted). -/
inductive AskOutcome where
  | ok (reply : String)
  | raised (e : RemoteError)
  | runFailed (msg : String)
  | diverged
deriving DecidableEq, Repr

/-- Python `str.strip()` with no argument: remove leading and trailing
whitespace characters. Implemented over the character list so that it
is fully computable in the kernel. -/
def strip (s : String) : String :=
  String.mk (((s.toList.dropWhile Char.isWhitespace).reverse.dropWhile
    Char.isWhitespace).reverse)

/-- `run.status in ("queued", "in_progress")`: the transient run
statuses the polling loop waits on. -/
def transientStatus (s : String) : Bool :=
  s == "queued" || s == "in_progress"

/-- The fixed sleep interval `time.sleep(0.8)` of the polling loop,
in time-units. -/
def pollInterval : ℚ := 8 / 10

/-- The polling loop of `ask_agent`: while the current status is
transient, sleep the fixed interval and re-fetch the run via
`(thread_id, run_id)`. `fuel` bounds the number of iterations modelled;
the source loop has no such bound, so exhausting fuel yields `none`
(divergence). Returns the loop result (final status together with the
absolute index of the fetch that produced it, or the exception raised
by a fetch) and the event log of the iterations performed. -/
def pollLoop (g : Nat → Except RemoteError String) (tid rid : String) :
    Nat → String → Nat → Option (Except RemoteError (String × Nat)) × List REvent
  | 0, cur, k =>
    if transientStatus cur then (none, [])
    else (some (Except.ok (cur, k)), [])
  | fuel + 1, cur, k =>
    if transientStatus cur then
      match g k with
      | Except.error e => (some (Except.error e), [REvent.sleep pollInterval, REvent.getRun tid rid])
      | Except.ok next =>
        let r := pollLoop g tid rid fuel next (k + 1)
        (r.1, [REvent.sleep pollInterval, REvent.getRun tid rid] ++ r.2)
    else (some (Except.ok (cur, k)), [])

/-- `ensure_thread`: create (once) and cache a thread for this session.
If `thread_id` is already set, nothing happens; otherwise the remote
create-thread call is made and, on success, its id is stored. Returns
the thread id and updated state (or the raised exception, with the
state unchanged), plus the log of remote calls made. -/
def ensure_thread (sc : TurnScript) (s : SessionState) :
    Except RemoteError (String × SessionState) × List REvent :=
  match s.thread_id with
  | some tid => (Except.ok (tid, s), [])
  | none =>
    match sc.createThreadResult with
    | Except.ok tid =>
      (Except.ok (tid, { s with thread_id := some tid }), [REvent.createThread])
    | Except.error e => (Except.error e, [REvent.createThread])

/-- Reply extraction from the listed messages (source lines 84 to 94):
take the first assistant-role message of the page; if there is none, or
it has no content parts, return the sentinel; otherwise concatenate the
text values of its text-typed parts with newline separators, strip
surrounding whitespace, and fall back to the empty-reply sentinel when
the result is empty. -/
def extract_reply (msgs : List RMessage) : String :=
  match msgs.find? (fun m => m.role == "assistant") with
  | none => "(No reply content)"
  | some m =>
    if m.content.isEmpty then "(No reply content)"
    else
      let parts := (m.content.filter (fun c => c.type == "text")).map (fun c => c.text)
      let reply := strip (String.intercalate "\n" parts)
      if reply = "" then "(Empty reply)" else reply

/-- `ask_agent`: send a user message, run the agent, and return the
assistant reply text. Mirrors the source line by line: ensure thread,
post the user message, create a run, poll until the status leaves
{queued, in_progress}, raise `RuntimeError` if the final status is not
completed, then list messages in descending order and extract the
reply. Returns the outcome, the session state as left by the call, and
the log of remote calls. -/
def ask_agent (fuel : Nat) (agentId : String) (sc : TurnScript)
    (s : SessionState) (userText : String) :
    AskOutcome × SessionState × List REvent :=
  match ensure_thread sc s with
  | (Except.error e, log0) => (AskOutcome.raised e, s, log0)
  | (Except.ok (tid, s1), log0) =>
    let log1 := log0 ++ [REvent.createMessage tid "user" userText]
    match sc.createMessageResult with
    | Except.error e => (AskOutcome.raised e, s1, log1)
    | Except.ok _ =>
      let log2 := log1 ++ [REvent.createRun tid agentId]
      match sc.createRunResult with
      | Except.error e => (AskOutcome.raised e, s1, log2)
      | Except.ok run =>
        match pollLoop sc.getRunResults tid run.id fuel run.status 0 with
        | (none, plog) => (AskOutcome.diverged, s1, log2 ++ plog)
        | (some (Except.error e), plog) => (AskOutcome.raised e, s1, log2 ++ plog)
        | (some (Except.ok (final, _)), plog) =>
          let log3 := log2 ++ plog
          if final ≠ "completed" then
            (AskOutcome.runFailed ("Run ended with status: " ++ final), s1, log3)
          else
            let log4 := log3 ++ [REvent.listMessages tid "desc"]
            match sc.listMessagesResult with
            | Except.error e => (AskOutcome.raised e, s1, log4)
            | Except.ok msgs => (AskOutcome.ok (extract_reply msgs), s1, log4)

/-- The chat-input handler: append the user turn to history, call
`ask_agent` inside try/except, and append the assistant turn only when
a reply was returned; every exception is caught, leaving the session
state as `ask_agent` left it, and the loop remains usable. -/
def handle_prompt (fuel : Nat) (agentId : String) (sc : TurnScript)
    (s : SessionState) (prompt : String) :
    SessionState × AskOutcome × List REvent :=
  let s1 : SessionState := { s with history := s.history ++ [("user", prompt)] }
  match ask_agent fuel agentId sc s1 prompt with
  | (AskOutcome.ok reply, s2, log) =>
    ({ s2 with history := s2.history ++ [("assistant", reply)] },
      AskOutcome.ok reply, log)
  | (out, s2, log) => (s2, out, log)

/-- The reset-button handler: set `thread_id` to `None` and `history`
to the empty list. -/
def reset_session (_s : SessionState) : SessionState :=
  { thread_id := none, history := [] }

/-- A sequence of sequential `ask_agent` calls in one session with no
reset: each call threads the session state; logs are concatenated in
call order. -/
def ask_seq (fuel : Nat) (agentId : String) :
    SessionState → List (TurnScript × String) → SessionState × List REvent
  | s, [] => (s, [])
  | s, (sc, u) :: rest =>
    let r := ask_agent fuel agentId sc s u
    let t := ask_seq fuel agentId r.2.1 rest
    (t.1, r.2.2 ++ t.2)

/-- Count the events satisfying `p` in a log. -/
def countEv (p : REvent → Bool) (log : List REvent) : Nat :=
  (log.filter p).length

/-- Recognizes a create-thread event. -/
def isCreateThread : REvent → Bool
  | REvent.createThread => true
  | _ => false

/-- Recognizes a create-message event. -/
def isCreateMessage : REvent → Bool
  | REvent.createMessage _ _ _ => true
  | _ => false

/-- Recognizes a create-run event. -/
def isCreateRun : REvent → Bool
  | REvent.createRun _ _ => true
  | _ => false

/-- Recognizes a list-messages event. -/
def isListMessages : REvent → Bool
  | REvent.listMessages _ _ => true
  | _ => false

/-- Configuration resolution for one name: the environment value if it
is set and non-empty (`if not X:` in the source treats both `None` and
the empty string as missing), otherwise the secret-store value with
default empty string. -/
def resolve_config (env secret : String → Option String) (name : String) : String :=
  let v := (env name).getD ""
  if v = "" then (secret name).getD "" else v

/-- The result of startup: whether the validation error was shown and
the script halted (`st.stop()`), and the remote operations performed
during startup (client construction is local, so none are). -/
structure StartupResult where
  errorShown : Bool
  halted : Bool
  remoteEvents : List REvent
deriving DecidableEq, Repr

/-- Startup: resolve `PROJECT_ENDPOINT` and `AGENT_ID` from environment
or secrets, then validate early; if either resolves empty, show the
error and stop before any interaction. No remote operation is performed
during startup on either path. -/
def startup (env secret : String → Option String) : StartupResult :=
  let pe := resolve_config env secret "PROJECT_ENDPOINT"
  let aid := resolve_config env secret "AGENT_ID"
  if pe = "" ∨ aid = "" then
    { errorShown := true, halted := true, remoteEvents := [] }
  else
    { errorShown := false, halted := false, remoteEvents := [] }

/-- The status observed at step `n` of a polling run: `s0` initially,
then the value fetched by the k-th `runs.get` call. -/
def statusAt (s0 : String) (f : Nat → String) : Nat → String
  | 0 => s0
  | n + 1 => f n

end StreamliApp

namespace StreamliApp

lemma countEv_append (p : REvent → Bool) (l1 l2 : List REvent) :
    countEv p (l1 ++ l2) = countEv p l1 + countEv p l2 := by
  simp [countEv, List.filter_append]

lemma pollLoop_zero (g : Nat → Except RemoteError String) (tid rid cur : String) (k : Nat) :
    pollLoop g tid rid 0 cur k =
      if transientStatus cur then (none, []) else (some (Except.ok (cur, k)), []) := rfl

lemma pollLoop_not_transient (g : Nat → Except RemoteError String) (tid rid cur : String)
    (fuel k : Nat) (h : transientStatus cur = false) :
    pollLoop g tid rid fuel cur k = (some (Except.ok (cur, k)), []) := by
  cases fuel <;> simp [pollLoop, h]

lemma pollLoop_succ_err (g : Nat → Except RemoteError String) (tid rid cur : String)
    (fuel k : Nat) (e : RemoteError) (h : transientStatus cur = true)
    (hg : g k = Except.error e) :
    pollLoop g tid rid (fuel + 1) cur k =
      (some (Except.error e), [REvent.sleep pollInterval, REvent.getRun tid rid]) := by
  simp [pollLoop, h, hg]

lemma pollLoop_succ_ok (g : Nat → Except RemoteError String) (tid rid cur next : String)
    (fuel k : Nat) (h : transientStatus cur = true) (hg : g k = Except.ok next) :
    pollLoop g tid rid (fuel + 1) cur k =
      ((pollLoop g tid rid fuel next (k + 1)).1,
        [REvent.sleep pollInterval, REvent.getRun tid rid] ++
          (pollLoop g tid rid fuel next (k + 1)).2) := by
  simp [pollLoop, h, hg]

lemma pollLoop_mem (g : Nat → Except RemoteError String) (tid rid : String) :
    ∀ (fuel : Nat) (cur : String) (k : Nat) (e : REvent),
      e ∈ (pollLoop g tid rid fuel cur k).2 →
      e = REvent.sleep pollInterval ∨ e = REvent.getRun tid rid := by
  intro fuel
  induction fuel with
  | zero =>
    intro cur k e he
    rw [pollLoop_zero] at he
    split at he <;> simp at he
  | succ n ih =>
    intro cur k e he
    by_cases h : transientStatus cur = true
    · cases hg : g k with
      | error e2 =>
        rw [pollLoop_succ_err g tid rid cur n k e2 h hg] at he
        simp at he
        rcases he with he | he <;> simp [he]
      | ok next =>
        rw [pollLoop_succ_ok g tid rid cur next n k h hg] at he
        simp at he
        rcases he with he | he | he
        · simp [he]
        · simp [he]
        · exact ih next (k + 1) e he
    · rw [pollLoop_not_transient g tid rid cur (n + 1) k (by simpa using h)] at he
      simp at he

lemma countEv_pollLoop (g : Nat → Except RemoteError String) (tid rid cur : String)
    (fuel k : Nat) (p : REvent → Bool)
    (hp1 : ∀ q, p (REvent.sleep q) = false)
    (hp2 : ∀ t r, p (REvent.getRun t r) = false) :
    countEv p (pollLoop g tid rid fuel cur k).2 = 0 := by
  have hf : List.filter p (pollLoop g tid rid fuel cur k).2 = [] := by
    rw [List.filter_eq_nil_iff]
    intro e he
    rcases pollLoop_mem g tid rid fuel cur k e he with h | h <;>
      simp [h, hp1, hp2]
  simp [countEv, hf]

lemma ensure_thread_some (sc : TurnScript) (s : SessionState) (tid : String)
    (h : s.thread_id = some tid) :
    ensure_thread sc s = (Except.ok (tid, s), []) := by
  unfold ensure_thread
  rw [h]

lemma ensure_thread_none_ok (sc : TurnScript) (s : SessionState) (tid : String)
    (h : s.thread_id = none) (hc : sc.createThreadResult = Except.ok tid) :
    ensure_thread sc s =
      (Except.ok (tid, { s with thread_id := some tid }), [REvent.createThread]) := by
  unfold ensure_thread
  rw [h, hc]

lemma ensure_thread_none_err (sc : TurnScript) (s : SessionState) (e : RemoteError)
    (h : s.thread_id = none) (hc : sc.createThreadResult = Except.error e) :
    ensure_thread sc s = (Except.error e, [REvent.createThread]) := by
  unfold ensure_thread
  rw [h, hc]

end StreamliApp

namespace StreamliApp

lemma ask_agent_ensure_err (fuel : Nat) (a : String) (sc : TurnScript)
    (s : SessionState) (u : String) (e : RemoteError) (log0 : List REvent)
    (h : ensure_thread sc s = (Except.error e, log0)) :
    ask_agent fuel a sc s u = (AskOutcome.raised e, s, log0) := by
  unfold ask_agent
  rw [h]

lemma ask_agent_msg_err (fuel : Nat) (a : String) (sc : TurnScript)
    (s s1 : SessionState) (u tid : String) (e : RemoteError) (log0 : List REvent)
    (h : ensure_thread sc s = (Except.ok (tid, s1), log0))
    (hm : sc.createMessageResult = Except.error e) :
    ask_agent fuel a sc s u =
      (AskOutcome.raised e, s1, log0 ++ [REvent.createMessage tid "user" u]) := by
  unfold ask_agent
  rw [h]
  simp only [hm]

lemma ask_agent_run_err (fuel : Nat) (a : String) (sc : TurnScript)
    (s s1 : SessionState) (u tid : String) (e : RemoteError) (log0 : List REvent)
    (h : ensure_thread sc s = (Except.ok (tid, s1), log0))
    (hm : sc.createMessageResult = Except.ok ())
    (hr : sc.createRunResult = Except.error e) :
    ask_agent fuel a sc s u =
      (AskOutcome.raised e, s1,
        log0 ++ [REvent.createMessage tid "user" u] ++ [REvent.createRun tid a]) := by
  unfold ask_agent
  rw [h]
  simp only [hm, hr]

lemma ask_agent_poll_div (fuel : Nat) (a : String) (sc : TurnScript)
    (s s1 : SessionState) (u tid : String) (run : RunState)
    (log0 plog : List REvent)
    (h : ensure_thread sc s = (Except.ok (tid, s1), log0))
    (hm : sc.createMessageResult = Except.ok ())
    (hr : sc.createRunResult = Except.ok run)
    (hp : pollLoop sc.getRunResults tid run.id fuel run.status 0 = (none, plog)) :
    ask_agent fuel a sc s u =
      (AskOutcome.diverged, s1,
        log0 ++ [REvent.createMessage tid "user" u] ++ [REvent.createRun tid a] ++ plog) := by
  unfold ask_agent
  rw [h]
  simp only [hm, hr, hp]

lemma ask_agent_poll_err (fuel : Nat) (a : String) (sc : TurnScript)
    (s s1 : SessionState) (u tid : String) (run : RunState) (e : RemoteError)
    (log0 plog : List REvent)
    (h : ensure_thread sc s = (Except.ok (tid, s1), log0))
    (hm : sc.createMessageResult = Except.ok ())
    (hr : sc.createRunResult = Except.ok run)
    (hp : pollLoop sc.getRunResults tid run.id fuel run.status 0 =
      (some (Except.error e), plog)) :
    ask_agent fuel a sc s u =
      (AskOutcome.raised e, s1,
        log0 ++ [REvent.createMessage tid "user" u] ++ [REvent.createRun tid a] ++ plog) := by
  unfold ask_agent
  rw [h]
  simp only [hm, hr, hp]

lemma ask_agent_run_failed (fuel : Nat) (a : String) (sc : TurnScript)
    (s s1 : SessionState) (u tid final : String) (run : RunState) (n : Nat)
    (log0 plog : List REvent)
    (h : ensure_thread sc s = (Except.ok (tid, s1), log0))
    (hm : sc.createMessageResult = Except.ok ())
    (hr : sc.createRunResult = Except.ok run)
    (hp : pollLoop sc.getRunResults tid run.id fuel run.status 0 =
      (some (Except.ok (final, n)), plog))
    (hf : final ≠ "completed") :
    ask_agent fuel a sc s u =
      (AskOutcome.runFailed ("Run ended with status: " ++ final), s1,
        log0 ++ [REvent.createMessage tid "user" u] ++ [REvent.createRun tid a] ++ plog) := by
  unfold ask_agent
  rw [h]
  simp only [hm, hr, hp, hf, ne_eq, not_false_eq_true, if_true, ite_not]

lemma ask_agent_list_err (fuel : Nat) (a : String) (sc : TurnScript)
    (s s1 : SessionState) (u tid : String) (run : RunState) (n : Nat)
    (e : RemoteError) (log0 plog : List REvent)
    (h : ensure_thread sc s = (Except.ok (tid, s1), log0))
    (hm : sc.createMessageResult = Except.ok ())
    (hr : sc.createRunResult = Except.ok run)
    (hp : pollLoop sc.getRunResults tid run.id fuel run.status 0 =
      (some (Except.ok ("completed", n)), plog))
    (hl : sc.listMessagesResult = Except.error e) :
    ask_agent fuel a sc s u =
      (AskOutcome.raised e, s1,
        log0 ++ [REvent.createMessage tid "user" u] ++ [REvent.createRun tid a] ++ plog
          ++ [REvent.listMessages tid "desc"]) := by
  unfold ask_agent
  rw [h]
  simp only [hm, hr, hp, hl, ne_eq, not_true_eq_false, if_false, ite_not]

lemma ask_agent_completed (fuel : Nat) (a : String) (sc : TurnScript)
    (s s1 : SessionState) (u tid : String) (run : RunState) (n : Nat)
    (msgs : List RMessage) (log0 plog : List REvent)
    (h : ensure_thread sc s = (Except.ok (tid, s1), log0))
    (hm : sc.createMessageResult = Except.ok ())
    (hr : sc.createRunResult = Except.ok run)
    (hp : pollLoop sc.getRunResults tid run.id fuel run.status 0 =
      (some (Except.ok ("completed", n)), plog))
    (hl : sc.listMessagesResult = Except.ok msgs) :
    ask_agent fuel a sc s u =
      (AskOutcome.ok (extract_reply msgs), s1,
        log0 ++ [REvent.createMessage tid "user" u] ++ [REvent.createRun tid a] ++ plog
          ++ [REvent.listMessages tid "desc"]) := by
  unfold ask_agent
  rw [h]
  simp only [hm, hr, hp, hl, ne_eq, not_true_eq_false, if_false, ite_not]

end StreamliApp

namespace StreamliApp

lemma pollLoop_reaches (g : Nat → Except RemoteError String) (f : Nat → String)
    (tid rid s0 : String) (hg : ∀ k, g k = Except.ok (f k)) :
    ∀ (n k fuel : Nat), n ≤ fuel →
      (∀ i, i < n → transientStatus (statusAt s0 f (k + i)) = true) →
      transientStatus (statusAt s0 f (k + n)) = false →
      pollLoop g tid rid fuel (statusAt s0 f k) k =
        (some (Except.ok (statusAt s0 f (k + n), k + n)),
          List.flatten (List.replicate n [REvent.sleep pollInterval, REvent.getRun tid rid])) := by
  intro n
  induction n with
  | zero =>
    intro k fuel _ _ hstop
    simp only [Nat.add_zero] at hstop
    rw [pollLoop_not_transient g tid rid _ fuel k hstop]
    simp
  | succ n ih =>
    intro k fuel hle htrans hstop
    obtain ⟨fuel, rfl⟩ : ∃ m, fuel = m + 1 := ⟨fuel - 1, by omega⟩
    have ht : transientStatus (statusAt s0 f k) = true := by
      have := htrans 0 (Nat.succ_pos n)
      simpa using this
    have hnext : f k = statusAt s0 f (k + 1) := rfl
    rw [pollLoop_succ_ok g tid rid _ (f k) fuel k ht (hg k), hnext]
    have ih2 := ih (k + 1) fuel (by omega)
      (fun i hi => by
        have := htrans (i + 1) (by omega)
        have harith : k + (i + 1) = k + 1 + i := by omega
        rwa [harith] at this)
      (by
        have harith : k + (n + 1) = k + 1 + n := by omega
        rwa [harith] at hstop)
    rw [ih2]
    have harith : k + 1 + n = k + (n + 1) := by omega
    rw [harith]
    simp [List.replicate_succ]

lemma pollLoop_diverges (g : Nat → Except RemoteError String) (f : Nat → String)
    (tid rid s0 : String) (hg : ∀ k, g k = Except.ok (f k))
    (hall : ∀ i, transientStatus (statusAt s0 f i) = true) :
    ∀ (fuel k : Nat), (pollLoop g tid rid fuel (statusAt s0 f k) k).1 = none := by
  intro fuel
  induction fuel with
  | zero =>
    intro k
    rw [pollLoop_zero]
    simp [hall k]
  | succ n ih =>
    intro k
    have hnext : f k = statusAt s0 f (k + 1) := rfl
    rw [pollLoop_succ_ok g tid rid _ (f k) n k (hall k) (hg k), hnext]
    exact ih (k + 1)

lemma ensure_thread_log (sc : TurnScript) (s : SessionState) :
    (ensure_thread sc s).2 =
      if s.thread_id = none then [REvent.createThread] else [] := by
  unfold ensure_thread
  rcases s.thread_id with _ | tid
  · rcases sc.createThreadResult with e | tid2 <;> simp
  · simp

lemma ask_agent_state (fuel : Nat) (a : String) (sc : TurnScript)
    (s : SessionState) (u : String) :
    (ask_agent fuel a sc s u).2.1 =
      (match ensure_thread sc s with
       | (Except.error _, _) => s
       | (Except.ok (_, s1), _) => s1) := by
  unfold ask_agent
  rcases he : ensure_thread sc s with ⟨r, log0⟩
  rcases r with e | ⟨tid, s1⟩
  · rfl
  · repeat' split
    all_goals rfl

end StreamliApp


namespace StreamliApp

lemma countEv_nil (p : REvent → Bool) : countEv p [] = 0 := rfl

lemma countEv_cons (p : REvent → Bool) (e : REvent) (l : List REvent) :
    countEv p (e :: l) = (if p e then 1 else 0) + countEv p l := by
  cases hp : p e <;> simp [countEv, List.filter_cons, hp, Nat.add_comm]

lemma ensure_thread_ok_inv (sc : TurnScript) (s s1 : SessionState) (tid : String)
    (log0 : List REvent) (h : ensure_thread sc s = (Except.ok (tid, s1), log0)) :
    s1.history = s.history ∧ s1.thread_id = some tid ∧
      ((s.thread_id = some tid ∧ s1 = s) ∨ s.thread_id = none) := by
  unfold ensure_thread at h
  rcases hs : s.thread_id with _ | t
  · rw [hs] at h
    rcases hc : sc.createThreadResult with e | t2
    · rw [hc] at h
      simp at h
    · rw [hc] at h
      simp only [Prod.mk.injEq, Except.ok.injEq] at h
      obtain ⟨⟨h1, h2⟩, _⟩ := h
      subst h1
      subst h2
      simp
  · rw [hs] at h
    simp only [Prod.mk.injEq, Except.ok.injEq] at h
    obtain ⟨⟨h1, h2⟩, _⟩ := h
    subst h1
    subst h2
    simp_all

lemma extract_reply_ne (msgs : List RMessage) : extract_reply msgs ≠ "" := by
  unfold extract_reply
  split
  · decide
  · split
    · decide
    · dsimp only
      split
      · decide
      · assumption

end StreamliApp

namespace StreamliApp

lemma ask_agent_inv (fuel : Nat) (a : String) (sc : TurnScript)
    (s : SessionState) (u : String) :
    countEv isCreateThread (ask_agent fuel a sc s u).2.2 =
        (if s.thread_id = none then 1 else 0) ∧
    countEv isCreateMessage (ask_agent fuel a sc s u).2.2 ≤ 1 ∧
    countEv isCreateRun (ask_agent fuel a sc s u).2.2 ≤ 1 ∧
    countEv isListMessages (ask_agent fuel a sc s u).2.2 ≤ 1 ∧
    (∀ r, (ask_agent fuel a sc s u).1 = AskOutcome.ok r →
      ∃ msgs, sc.listMessagesResult = Except.ok msgs ∧ r = extract_reply msgs) := by
  have hlog0 := ensure_thread_log sc s
  rcases he : ensure_thread sc s with ⟨r0, log0⟩
  rw [he] at hlog0
  have hlog : log0 = if s.thread_id = none then [REvent.createThread] else [] := by
    simpa using hlog0
  have hcntT : countEv isCreateThread log0 = if s.thread_id = none then 1 else 0 := by
    rw [hlog]
    split <;> simp [countEv, List.filter, isCreateThread]
  have hcnt0 : ∀ p : REvent → Bool, p REvent.createThread = false → countEv p log0 = 0 := by
    intro p hp
    rw [hlog]
    split <;> simp [countEv, List.filter, hp]
  have h0M := hcnt0 isCreateMessage rfl
  have h0R := hcnt0 isCreateRun rfl
  have h0L := hcnt0 isListMessages rfl
  rcases r0 with e | ⟨tid, s1⟩
  · rw [ask_agent_ensure_err fuel a sc s u e log0 he]
    refine ⟨hcntT, ?_, ?_, ?_, ?_⟩
    · simp [h0M]
    · simp [h0R]
    · simp [h0L]
    · intro r hr
      simp at hr
  · rcases hm : sc.createMessageResult with e2 | u2
    · rw [ask_agent_msg_err fuel a sc s s1 u tid e2 log0 he hm]
      refine ⟨?_, ?_, ?_, ?_, ?_⟩ <;>
        try simp [countEv_append, countEv_cons, countEv_nil, hcntT, h0M, h0R, h0L,
          isCreateThread, isCreateMessage, isCreateRun, isListMessages]
    · cases u2
      rcases hr : sc.createRunResult with e3 | run
      · rw [ask_agent_run_err fuel a sc s s1 u tid e3 log0 he hm hr]
        refine ⟨?_, ?_, ?_, ?_, ?_⟩ <;>
          try simp [countEv_append, countEv_cons, countEv_nil, hcntT, h0M, h0R, h0L,
            isCreateThread, isCreateMessage, isCreateRun, isListMessages]
      · rcases hp : pollLoop sc.getRunResults tid run.id fuel run.status 0 with ⟨o, plog⟩
        have hplog : ∀ p : REvent → Bool, (∀ q, p (REvent.sleep q) = false) →
            (∀ t r2, p (REvent.getRun t r2) = false) → countEv p plog = 0 := by
          intro p h1 h2
          have := countEv_pollLoop sc.getRunResults tid run.id run.status fuel 0 p h1 h2
          rw [hp] at this
          exact this
        have hpT := hplog isCreateThread (fun _ => rfl) (fun _ _ => rfl)
        have hpM := hplog isCreateMessage (fun _ => rfl) (fun _ _ => rfl)
        have hpR := hplog isCreateRun (fun _ => rfl) (fun _ _ => rfl)
        have hpL := hplog isListMessages (fun _ => rfl) (fun _ _ => rfl)
        rcases o with _ | ex
        · rw [ask_agent_poll_div fuel a sc s s1 u tid run log0 plog he hm hr hp]
          refine ⟨?_, ?_, ?_, ?_, ?_⟩ <;>
            try simp [countEv_append, countEv_cons, countEv_nil, hcntT, h0M, h0R, h0L,
              hpT, hpM, hpR, hpL, isCreateThread, isCreateMessage, isCreateRun, isListMessages]
        · rcases ex with e4 | ⟨final, n⟩
          · rw [ask_agent_poll_err fuel a sc s s1 u tid run e4 log0 plog he hm hr hp]
            refine ⟨?_, ?_, ?_, ?_, ?_⟩ <;>
              try simp [countEv_append, countEv_cons, countEv_nil, hcntT, h0M, h0R, h0L,
                hpT, hpM, hpR, hpL, isCreateThread, isCreateMessage, isCreateRun, isListMessages]
          · by_cases hf : final = "completed"
            · subst hf
              rcases hl : sc.listMessagesResult with e5 | msgs
              · rw [ask_agent_list_err fuel a sc s s1 u tid run n e5 log0 plog he hm hr hp hl]
                refine ⟨?_, ?_, ?_, ?_, ?_⟩ <;>
                  try simp [countEv_append, countEv_cons, countEv_nil, hcntT, h0M, h0R, h0L,
                    hpT, hpM, hpR, hpL, isCreateThread, isCreateMessage, isCreateRun,
                    isListMessages]
              · rw [ask_agent_completed fuel a sc s s1 u tid run n msgs log0 plog he hm hr hp hl]
                refine ⟨?_, ?_, ?_, ?_, ?_⟩ <;>
                  try simp [countEv_append, countEv_cons, countEv_nil, hcntT, h0M, h0R, h0L,
                    hpT, hpM, hpR, hpL, isCreateThread, isCreateMessage, isCreateRun,
                    isListMessages]
            · rw [ask_agent_run_failed fuel a sc s s1 u tid final run n log0 plog he hm hr hp hf]
              refine ⟨?_, ?_, ?_, ?_, ?_⟩ <;>
                try simp [countEv_append, countEv_cons, countEv_nil, hcntT, h0M, h0R, h0L,
                  hpT, hpM, hpR, hpL, isCreateThread, isCreateMessage, isCreateRun,
                  isListMessages]

end StreamliApp

namespace StreamliApp

lemma ask_agent_history (fuel : Nat) (a : String) (sc : TurnScript)
    (s : SessionState) (u : String) :
    (ask_agent fuel a sc s u).2.1.history = s.history := by
  rw [ask_agent_state]
  rcases he : ensure_thread sc s with ⟨r0, log0⟩
  rcases r0 with e | ⟨tid, s1⟩
  · rfl
  · exact (ensure_thread_ok_inv sc s s1 tid log0 he).1

lemma ask_agent_threadid (fuel : Nat) (a : String) (sc : TurnScript)
    (s : SessionState) (u : String) :
    (ask_agent fuel a sc s u).2.1.thread_id = s.thread_id ∨
      (s.thread_id = none ∧ ∃ t, (ask_agent fuel a sc s u).2.1.thread_id = some t) := by
  rw [ask_agent_state]
  rcases he : ensure_thread sc s with ⟨r0, log0⟩
  rcases r0 with e | ⟨tid, s1⟩
  · left
    rfl
  · obtain ⟨_, h2, h3⟩ := ensure_thread_ok_inv sc s s1 tid log0 he
    rcases h3 with ⟨hsome, rfl⟩ | hnone
    · left
      rfl
    · right
      exact ⟨hnone, tid, h2⟩

lemma ask_agent_thread_some (fuel : Nat) (a : String) (sc : TurnScript)
    (s : SessionState) (u t : String) (h : s.thread_id = some t) :
    (ask_agent fuel a sc s u).2.1.thread_id = some t ∧
    countEv isCreateThread (ask_agent fuel a sc s u).2.2 = 0 := by
  constructor
  · rw [ask_agent_state, ensure_thread_some sc s t h]
    exact h
  · have hc := (ask_agent_inv fuel a sc s u).1
    rw [h] at hc
    simpa using hc

lemma ask_agent_thread_none (fuel : Nat) (a : String) (sc : TurnScript)
    (s : SessionState) (u tid : String) (h : s.thread_id = none)
    (hc : sc.createThreadResult = Except.ok tid) :
    (ask_agent fuel a sc s u).2.1.thread_id = some tid ∧
    countEv isCreateThread (ask_agent fuel a sc s u).2.2 = 1 := by
  constructor
  · rw [ask_agent_state, ensure_thread_none_ok sc s tid h hc]
  · have hcnt := (ask_agent_inv fuel a sc s u).1
    rw [h] at hcnt
    simpa using hcnt

lemma ask_seq_some (fuel : Nat) (a t : String) :
    ∀ (L : List (TurnScript × String)) (s : SessionState), s.thread_id = some t →
      (ask_seq fuel a s L).1.thread_id = some t ∧
      countEv isCreateThread (ask_seq fuel a s L).2 = 0 := by
  intro L
  induction L with
  | nil =>
    intro s h
    exact ⟨h, rfl⟩
  | cons hd tl ih =>
    intro s h
    rcases hd with ⟨sc, u⟩
    obtain ⟨h1, h2⟩ := ask_agent_thread_some fuel a sc s u t h
    obtain ⟨h3, h4⟩ := ih (ask_agent fuel a sc s u).2.1 h1
    unfold ask_seq
    dsimp only
    exact ⟨h3, by rw [countEv_append, h2, h4]⟩

/-- The stubbed remote service of the specification scenario: create-run
returns queued, one get-run returns in progress, the next returns
completed, and the message list holds one assistant message with text
parts A then B. -/
def stubTS : TurnScript := {
  createThreadResult := Except.ok "t1",
  createMessageResult := Except.ok (),
  createRunResult := Except.ok { id := "r1", status := "queued" },
  getRunResults := fun k => if k = 0 then Except.ok "in_progress" else Except.ok "completed",
  listMessagesResult := Except.ok
    [{ role := "assistant",
       content := [{ type := "text", text := "A" }, { type := "text", text := "B" }] }] }

/-- A stub whose completed run yields one assistant message with a single
whitespace-only text part. -/
def whitespaceTS : TurnScript := {
  createThreadResult := Except.ok "t1",
  createMessageResult := Except.ok (),
  createRunResult := Except.ok { id := "r1", status := "completed" },
  getRunResults := fun _ => Except.ok "completed",
  listMessagesResult := Except.ok
    [{ role := "assistant", content := [{ type := "text", text := " " }] }] }

/-- A stub whose create-thread call raises an authentication error. -/
def threadFailTS : TurnScript := {
  createThreadResult := Except.error (RemoteError.auth "rejected"),
  createMessageResult := Except.ok (),
  createRunResult := Except.ok { id := "r1", status := "completed" },
  getRunResults := fun _ => Except.ok "completed",
  listMessagesResult := Except.ok [] }

/-- A plain successful stub: fresh thread id t2, immediately completed
run, one assistant message. -/
def plainTS : TurnScript := {
  createThreadResult := Except.ok "t2",
  createMessageResult := Except.ok (),
  createRunResult := Except.ok { id := "r1", status := "completed" },
  getRunResults := fun _ => Except.ok "completed",
  listMessagesResult := Except.ok
    [{ role := "assistant",
       content := [{ type := "text", text := "A" }, { type := "text", text := "B" }] }] }

/-- A stub whose run ends in the terminal status failed. -/
def runFailedTS : TurnScript := {
  createThreadResult := Except.ok "t1",
  createMessageResult := Except.ok (),
  createRunResult := Except.ok { id := "r1", status := "failed" },
  getRunResults := fun _ => Except.ok "failed",
  listMessagesResult := Except.ok [] }

/-- A stub whose completed run lists only a user-role message. -/
def noAssistantTS : TurnScript := {
  createThreadResult := Except.ok "t1",
  createMessageResult := Except.ok (),
  createRunResult := Except.ok { id := "r1", status := "completed" },
  getRunResults := fun _ => Except.ok "completed",
  listMessagesResult := Except.ok
    [{ role := "user", content := [{ type := "text", text := "hi" }] }] }

/-- The status stream of the specification stub as seen by the polling
loop: first fetch returns in progress, later fetches return completed. -/
def stubStatuses (k : Nat) : String :=
  if k = 0 then "in_progress" else "completed"

/-- The always-queued status stream: every fetch returns queued. -/
def queuedForever (_k : Nat) : String :=
  "queued"

end StreamliApp

namespace StreamliApp

lemma handle_prompt_eq (fuel : Nat) (a : String) (sc : TurnScript)
    (s : SessionState) (p : String) :
    handle_prompt fuel a sc s p =
      (match ask_agent fuel a sc { s with history := s.history ++ [("user", p)] } p with
       | (AskOutcome.ok reply, s2, log) =>
         ({ s2 with history := s2.history ++ [("assistant", reply)] },
           AskOutcome.ok reply, log)
       | (out, s2, log) => (s2, out, log)) := rfl

/-- C3: the polling loop iterates exactly while the run status is queued
or in progress, sleeping the fixed 0.8 time-unit interval before each
re-fetch of the run via (thread id, run id); it has no timeout or
iteration bound: on an error-free status stream it terminates exactly
when the observed status leaves {queued, in_progress}, returning that
first non-transient status after exactly that many sleep/fetch
iterations, and when every status stays transient it never terminates,
whatever the fuel bound. -/
theorem claimC3 (g : Nat → Except RemoteError String) (f : Nat → String)
    (tid rid s0 : String) (hg : ∀ k, g k = Except.ok (f k)) :
    pollInterval = 4 / 5 ∧
    (∀ n fuel : Nat, n ≤ fuel →
      (∀ i, i < n → transientStatus (statusAt s0 f i) = true) →
      transientStatus (statusAt s0 f n) = false →
      pollLoop g tid rid fuel s0 0 =
        (some (Except.ok (statusAt s0 f n, n)),
          List.flatten (List.replicate n
            [REvent.sleep pollInterval, REvent.getRun tid rid]))) ∧
    ((∀ i, transientStatus (statusAt s0 f i) = true) →
      ∀ fuel, (pollLoop g tid rid fuel s0 0).1 = none) := by
  refine ⟨by norm_num [pollInterval], ?_, ?_⟩
  · intro n fuel hle htr hstop
    have h1 : ∀ i, i < n → transientStatus (statusAt s0 f (0 + i)) = true := by
      intro i hi
      simpa using htr i hi
    have h2 : transientStatus (statusAt s0 f (0 + n)) = false := by
      simpa using hstop
    have h3 := pollLoop_reaches g f tid rid s0 hg n 0 fuel hle h1 h2
    simpa [statusAt] using h3
  · intro hall fuel
    exact pollLoop_diverges g f tid rid s0 hg hall fuel 0

/-- Witness for C3: with the stub status stream (in progress, then
completed) the loop stops after two iterations and returns completed;
with the always-queued stream it returns no result for fuel 9. -/
theorem claimC3_witness :
    pollLoop (fun k => Except.ok (stubStatuses k)) "t1" "r1" 5 "queued" 0 =
      (some (Except.ok ("completed", 2)),
        [REvent.sleep pollInterval, REvent.getRun "t1" "r1",
         REvent.sleep pollInterval, REvent.getRun "t1" "r1"]) ∧
    (pollLoop (fun k => Except.ok (queuedForever k)) "t1" "r1" 9 "queued" 0).1 = none := by
  constructor
  · exact (claimC3 (fun k => Except.ok (stubStatuses k)) stubStatuses "t1" "r1" "queued"
      (fun _ => rfl)).2.1 2 5 (by omega) (by decide) (by decide)
  · exact (claimC3 (fun k => Except.ok (queuedForever k)) queuedForever "t1" "r1" "queued"
      (fun _ => rfl)).2.2 (fun i => by cases i <;> rfl) 9

/-- Counterexample for C1 as stated: with a completed run whose newest
assistant message has a single text part holding one space, the trimmed
concatenation of the text values is the empty string, yet ask returns
the sentinel "(Empty reply)" rather than that trimmed concatenation. -/
theorem claimC1_counterexample :
    (ask_agent 3 "agent" whitespaceTS { thread_id := some "t1", history := [] } "hi").1 =
      AskOutcome.ok "(Empty reply)" ∧
    strip (String.intercalate "\n" [" "]) = "" ∧
    (ask_agent 3 "agent" whitespaceTS { thread_id := some "t1", history := [] } "hi").1 ≠
      AskOutcome.ok (strip (String.intercalate "\n" [" "])) := by
  refine ⟨rfl, rfl, by decide⟩

/-- C1 (amended): for every completed run whose newest assistant message
has at least one content part, all of type text, and whose text values
joined with newline separators and stripped of surrounding whitespace
are non-empty, ask returns exactly that joined and stripped text; the
sentinels cover the remaining degenerate cases. In particular, with
the stubbed service of the specification, ask "hi" returns "A\nB"
(see the witness). -/
theorem claimC1 (fuel : Nat) (a : String) (sc : TurnScript) (s s1 : SessionState)
    (u tid : String) (run : RunState) (n : Nat) (msgs : List RMessage) (m : RMessage)
    (log0 plog : List REvent)
    (he : ensure_thread sc s = (Except.ok (tid, s1), log0))
    (hm : sc.createMessageResult = Except.ok ())
    (hr : sc.createRunResult = Except.ok run)
    (hp : pollLoop sc.getRunResults tid run.id fuel run.status 0 =
      (some (Except.ok ("completed", n)), plog))
    (hl : sc.listMessagesResult = Except.ok msgs)
    (hfind : msgs.find? (fun m2 => m2.role == "assistant") = some m)
    (hne : m.content ≠ [])
    (htext : ∀ c ∈ m.content, c.type = "text")
    (hnonempty : strip (String.intercalate "\n" (m.content.map (fun c => c.text))) ≠ "") :
    (ask_agent fuel a sc s u).1 =
      AskOutcome.ok (strip (String.intercalate "\n" (m.content.map (fun c => c.text)))) := by
  rw [ask_agent_completed fuel a sc s s1 u tid run n msgs log0 plog he hm hr hp hl]
  show AskOutcome.ok (extract_reply msgs) = _
  unfold extract_reply
  rw [hfind]
  have hfilter : m.content.filter (fun c => c.type == "text") = m.content :=
    List.filter_eq_self.mpr (fun c hc => by simp [htext c hc])
  simp [hne, hfilter, hnonempty]

/-- Witness for C1: the specification's stub scenario returns exactly
"A\nB". -/
theorem claimC1_witness :
    (ask_agent 5 "agent" stubTS { thread_id := none, history := [] } "hi").1 =
      AskOutcome.ok "A\nB" :=
  claimC1 5 "agent" stubTS { thread_id := none, history := [] }
    { thread_id := some "t1", history := [] } "hi" "t1"
    { id := "r1", status := "queued" } 2
    [{ role := "assistant",
       content := [{ type := "text", text := "A" }, { type := "text", text := "B" }] }]
    { role := "assistant",
      content := [{ type := "text", text := "A" }, { type := "text", text := "B" }] }
    [REvent.createThread]
    [REvent.sleep pollInterval, REvent.getRun "t1" "r1",
     REvent.sleep pollInterval, REvent.getRun "t1" "r1"]
    rfl rfl rfl rfl rfl rfl (by decide) (by decide) (by decide)

/-- Counterexample for C2 as stated: when the first create-thread call
fails, the thread id is not stored, so the next ask issues a second
create-thread call: two sequential asks produce two create-thread
calls, not exactly one. -/
theorem claimC2_counterexample :
    countEv isCreateThread
      (ask_seq 3 "agent" { thread_id := none, history := [] }
        [(threadFailTS, "hi"), (plainTS, "hi")]).2 = 2 := by
  rfl

/-- C2 (amended): for every sequence of sequential ask calls in one
session with no reset, starting without a thread, whose first call's
create-thread succeeds, exactly one create-thread call occurs over the
whole sequence: the first ask creates the thread and stores its id, and
every subsequent ask reuses the stored id without creating another
thread. (A failed create-thread call stores nothing, and the next ask
attempts creation again, which refutes the unconditional claim.) -/
theorem claimC2 (fuel : Nat) (a u tid : String) (sc : TurnScript)
    (rest : List (TurnScript × String)) (s : SessionState)
    (h0 : s.thread_id = none) (hc : sc.createThreadResult = Except.ok tid) :
    countEv isCreateThread (ask_seq fuel a s ((sc, u) :: rest)).2 = 1 ∧
    (ask_seq fuel a s ((sc, u) :: rest)).1.thread_id = some tid := by
  obtain ⟨h1, h2⟩ := ask_agent_thread_none fuel a sc s u tid h0 hc
  obtain ⟨h3, h4⟩ := ask_seq_some fuel a tid rest (ask_agent fuel a sc s u).2.1 h1
  unfold ask_seq
  dsimp only
  exact ⟨by rw [countEv_append, h2, h4], h3⟩

/-- Witness for C2: two successful sequential asks from a fresh session
make exactly one create-thread call and leave the created id stored. -/
theorem claimC2_witness :
    countEv isCreateThread
      (ask_seq 3 "agent" { thread_id := none, history := [] }
        [(plainTS, "hi"), (plainTS, "again")]).2 = 1 ∧
    (ask_seq 3 "agent" { thread_id := none, history := [] }
      [(plainTS, "hi"), (plainTS, "again")]).1.thread_id = some "t2" :=
  claimC2 3 "agent" "hi" "t2" plainTS [(plainTS, "again")]
    { thread_id := none, history := [] } rfl rfl

end StreamliApp

namespace StreamliApp

/-- C4: whenever the final polled status is not completed (failed,
cancelled, expired, or any other value), ask raises a run-failure error
whose message contains the literal final status value, with the same
uniform message format for every such status and no differentiated
recovery, and no list-messages call is made; completed is the only
final status for which ask proceeds to fetch the reply (exactly one
list-messages call then occurs). -/
theorem claimC4 (fuel : Nat) (a : String) (sc : TurnScript) (s s1 : SessionState)
    (u tid final : String) (run : RunState) (n : Nat) (log0 plog : List REvent)
    (he : ensure_thread sc s = (Except.ok (tid, s1), log0))
    (hm : sc.createMessageResult = Except.ok ())
    (hr : sc.createRunResult = Except.ok run)
    (hp : pollLoop sc.getRunResults tid run.id fuel run.status 0 =
      (some (Except.ok (final, n)), plog)) :
    (final ≠ "completed" →
      (ask_agent fuel a sc s u).1 =
        AskOutcome.runFailed ("Run ended with status: " ++ final) ∧
      (∃ pre post, "Run ended with status: " ++ final = pre ++ final ++ post) ∧
      countEv isListMessages (ask_agent fuel a sc s u).2.2 = 0) ∧
    (final = "completed" →
      countEv isListMessages (ask_agent fuel a sc s u).2.2 = 1) := by
  have hlog : log0 = if s.thread_id = none then [REvent.createThread] else [] := by
    have h := ensure_thread_log sc s
    rw [he] at h
    simpa using h
  have h0 : countEv isListMessages log0 = 0 := by
    rw [hlog]
    split <;> rfl
  have hplogL : countEv isListMessages plog = 0 := by
    have h := countEv_pollLoop sc.getRunResults tid run.id run.status fuel 0 isListMessages
      (fun _ => rfl) (fun _ _ => rfl)
    rw [hp] at h
    exact h
  constructor
  · intro hf
    rw [ask_agent_run_failed fuel a sc s s1 u tid final run n log0 plog he hm hr hp hf]
    refine ⟨rfl, ⟨"Run ended with status: ", "", by simp⟩, ?_⟩
    simp [countEv_append, countEv_cons, countEv_nil, h0, hplogL, isListMessages]
  · intro hf
    subst hf
    rcases hl : sc.listMessagesResult with e5 | msgs
    · rw [ask_agent_list_err fuel a sc s s1 u tid run n e5 log0 plog he hm hr hp hl]
      simp [countEv_append, countEv_cons, countEv_nil, h0, hplogL, isListMessages]
    · rw [ask_agent_completed fuel a sc s s1 u tid run n msgs log0 plog he hm hr hp hl]
      simp [countEv_append, countEv_cons, countEv_nil, h0, hplogL, isListMessages]

/-- Witness for C4: a run that ends failed makes ask raise the
run-failure error with the literal status in its message, and no
list-messages call happens. -/
theorem claimC4_witness :
    (ask_agent 4 "agent" runFailedTS { thread_id := none, history := [] } "hi").1 =
      AskOutcome.runFailed "Run ended with status: failed" ∧
    (∃ pre post, "Run ended with status: failed" = pre ++ "failed" ++ post) ∧
    countEv isListMessages
      (ask_agent 4 "agent" runFailedTS { thread_id := none, history := [] } "hi").2.2 = 0 :=
  (claimC4 4 "agent" runFailedTS { thread_id := none, history := [] }
    { thread_id := some "t1", history := [] } "hi" "t1" "failed"
    { id := "r1", status := "failed" } 0 [REvent.createThread] []
    rfl rfl rfl rfl).1 (by decide)

/-- Counterexample for C5 as stated: a run-failure on the very first
turn of a session leaves the session state changed beyond the appended
user message: the lazily created thread id has been stored, so
thread_id is no longer none. -/
theorem claimC5_counterexample :
    (handle_prompt 4 "agent" runFailedTS { thread_id := none, history := [] } "hi").2.1 =
      AskOutcome.runFailed "Run ended with status: failed" ∧
    (handle_prompt 4 "agent" runFailedTS
      { thread_id := none, history := [] } "hi").1.thread_id ≠ none := by
  exact ⟨rfl, by decide⟩

/-- C5 (amended): on every turn where ask fails (raised authentication,
protocol or unclassified error, run failure, or divergence), the
session state is unchanged except that the user's message, recorded
before the failure, stays appended to history — no assistant entry is
added — and except that thread_id may have been set by lazy thread
creation during that same turn; within the turn no remote call is
retried: create-thread, post-message, create-run and list-messages are
each called at most once. -/
theorem claimC5 (fuel : Nat) (a : String) (sc : TurnScript) (s : SessionState) (p : String)
    (hfail : ∀ r, (handle_prompt fuel a sc s p).2.1 ≠ AskOutcome.ok r) :
    (handle_prompt fuel a sc s p).1.history = s.history ++ [("user", p)] ∧
    ((handle_prompt fuel a sc s p).1.thread_id = s.thread_id ∨
      (s.thread_id = none ∧ ∃ t, (handle_prompt fuel a sc s p).1.thread_id = some t)) ∧
    countEv isCreateThread (handle_prompt fuel a sc s p).2.2 ≤ 1 ∧
    countEv isCreateMessage (handle_prompt fuel a sc s p).2.2 ≤ 1 ∧
    countEv isCreateRun (handle_prompt fuel a sc s p).2.2 ≤ 1 ∧
    countEv isListMessages (handle_prompt fuel a sc s p).2.2 ≤ 1 := by
  have heq := handle_prompt_eq fuel a sc s p
  rcases ha : ask_agent fuel a sc { s with history := s.history ++ [("user", p)] } p
    with ⟨out, s2, log⟩
  rw [ha] at heq
  have hhist : s2.history = s.history ++ [("user", p)] := by
    have h := ask_agent_history fuel a sc { s with history := s.history ++ [("user", p)] } p
    rw [ha] at h
    simpa using h
  have hth := ask_agent_threadid fuel a sc { s with history := s.history ++ [("user", p)] } p
  rw [ha] at hth
  have hinv := ask_agent_inv fuel a sc { s with history := s.history ++ [("user", p)] } p
  rw [ha] at hinv
  obtain ⟨hc1, hc2, hc3, hc4, _⟩ := hinv
  have hcT : countEv isCreateThread log ≤ 1 := by
    rw [hc1]
    split <;> norm_num
  cases out with
  | ok r =>
    exfalso
    exact hfail r (by rw [heq])
  | raised e =>
    rw [heq]
    exact ⟨hhist, hth, hcT, hc2, hc3, hc4⟩
  | runFailed msg =>
    rw [heq]
    exact ⟨hhist, hth, hcT, hc2, hc3, hc4⟩
  | diverged =>
    rw [heq]
    exact ⟨hhist, hth, hcT, hc2, hc3, hc4⟩

/-- Witness for C5: a failed-run turn on a session that already holds a
thread keeps the state unchanged apart from the user message, appends
no assistant entry, and makes each singular remote call at most once. -/
theorem claimC5_witness :
    (handle_prompt 4 "agent" runFailedTS
        { thread_id := some "t1", history := [("user", "x")] } "hi").1.history =
      [("user", "x")] ++ [("user", "hi")] ∧
    ((handle_prompt 4 "agent" runFailedTS
        { thread_id := some "t1", history := [("user", "x")] } "hi").1.thread_id =
        some "t1" ∨
      (some "t1" = (none : Option String) ∧ ∃ t, (handle_prompt 4 "agent" runFailedTS
        { thread_id := some "t1", history := [("user", "x")] } "hi").1.thread_id = some t)) ∧
    countEv isCreateThread (handle_prompt 4 "agent" runFailedTS
      { thread_id := some "t1", history := [("user", "x")] } "hi").2.2 ≤ 1 ∧
    countEv isCreateMessage (handle_prompt 4 "agent" runFailedTS
      { thread_id := some "t1", history := [("user", "x")] } "hi").2.2 ≤ 1 ∧
    countEv isCreateRun (handle_prompt 4 "agent" runFailedTS
      { thread_id := some "t1", history := [("user", "x")] } "hi").2.2 ≤ 1 ∧
    countEv isListMessages (handle_prompt 4 "agent" runFailedTS
      { thread_id := some "t1", history := [("user", "x")] } "hi").2.2 ≤ 1 :=
  claimC5 4 "agent" runFailedTS { thread_id := some "t1", history := [("user", "x")] } "hi"
    (fun _r h => AskOutcome.noConfusion h)

end StreamliApp

namespace StreamliApp

/-- C6: for a completed run, ask requests the message list with
descending (reverse chronological) order and selects the first message
whose role is assistant; if no assistant-role message exists, or the
selected message has no content parts, ask returns the literal sentinel
"(No reply content)". -/
theorem claimC6 (fuel : Nat) (a : String) (sc : TurnScript) (s s1 : SessionState)
    (u tid : String) (run : RunState) (n : Nat) (msgs : List RMessage)
    (log0 plog : List REvent)
    (he : ensure_thread sc s = (Except.ok (tid, s1), log0))
    (hm : sc.createMessageResult = Except.ok ())
    (hr : sc.createRunResult = Except.ok run)
    (hp : pollLoop sc.getRunResults tid run.id fuel run.status 0 =
      (some (Except.ok ("completed", n)), plog))
    (hl : sc.listMessagesResult = Except.ok msgs)
    (hnone : msgs.find? (fun m => m.role == "assistant") = none ∨
      ∃ m, msgs.find? (fun m2 => m2.role == "assistant") = some m ∧ m.content = []) :
    (ask_agent fuel a sc s u).1 = AskOutcome.ok "(No reply content)" ∧
    REvent.listMessages tid "desc" ∈ (ask_agent fuel a sc s u).2.2 := by
  rw [ask_agent_completed fuel a sc s s1 u tid run n msgs log0 plog he hm hr hp hl]
  constructor
  · show AskOutcome.ok (extract_reply msgs) = _
    unfold extract_reply
    rcases hnone with hn | ⟨m, hf, hc⟩
    · rw [hn]
    · rw [hf]
      simp [hc]
  · simp

/-- Witness for C6: a completed run whose message list holds only a
user-role message makes ask return the sentinel, with the descending
list call in the log. -/
theorem claimC6_witness :
    (ask_agent 3 "agent" noAssistantTS { thread_id := none, history := [] } "hi").1 =
      AskOutcome.ok "(No reply content)" ∧
    REvent.listMessages "t1" "desc" ∈
      (ask_agent 3 "agent" noAssistantTS { thread_id := none, history := [] } "hi").2.2 :=
  claimC6 3 "agent" noAssistantTS { thread_id := none, history := [] }
    { thread_id := some "t1", history := [] } "hi" "t1"
    { id := "r1", status := "completed" } 0
    [{ role := "user", content := [{ type := "text", text := "hi" }] }]
    [REvent.createThread] []
    rfl rfl rfl rfl rfl (Or.inl (by decide))

/-- C7: for every assistant message whose text-typed content parts
concatenate (with newline separators) and trim to the empty string,
ask returns the literal sentinel "(Empty reply)". -/
theorem claimC7 (fuel : Nat) (a : String) (sc : TurnScript) (s s1 : SessionState)
    (u tid : String) (run : RunState) (n : Nat) (msgs : List RMessage) (m : RMessage)
    (log0 plog : List REvent)
    (he : ensure_thread sc s = (Except.ok (tid, s1), log0))
    (hm : sc.createMessageResult = Except.ok ())
    (hr : sc.createRunResult = Except.ok run)
    (hp : pollLoop sc.getRunResults tid run.id fuel run.status 0 =
      (some (Except.ok ("completed", n)), plog))
    (hl : sc.listMessagesResult = Except.ok msgs)
    (hfind : msgs.find? (fun m2 => m2.role == "assistant") = some m)
    (hne : m.content ≠ [])
    (hempty : strip (String.intercalate "\n"
      ((m.content.filter (fun c => c.type == "text")).map (fun c => c.text))) = "") :
    (ask_agent fuel a sc s u).1 = AskOutcome.ok "(Empty reply)" := by
  rw [ask_agent_completed fuel a sc s s1 u tid run n msgs log0 plog he hm hr hp hl]
  show AskOutcome.ok (extract_reply msgs) = _
  unfold extract_reply
  rw [hfind]
  simp [hne, hempty]

/-- Witness for C7: an assistant message with one whitespace-only text
part yields the empty-reply sentinel. -/
theorem claimC7_witness :
    (ask_agent 3 "agent" whitespaceTS { thread_id := none, history := [] } "hi").1 =
      AskOutcome.ok "(Empty reply)" :=
  claimC7 3 "agent" whitespaceTS { thread_id := none, history := [] }
    { thread_id := some "t1", history := [] } "hi" "t1"
    { id := "r1", status := "completed" } 0
    [{ role := "assistant", content := [{ type := "text", text := " " }] }]
    { role := "assistant", content := [{ type := "text", text := " " }] }
    [REvent.createThread] []
    rfl rfl rfl rfl rfl rfl (by decide) (by decide)

/-- C8: reset clears both thread_id (to none) and history (to empty) in
a single state update, with no partially reset state; after a reset,
the next ask call creates a thread, stores its id, makes exactly one
create-thread call, and — when the stub returns an id different from
the previous one — the stored id differs from the previous thread id. -/
theorem claimC8 (s : SessionState) (fuel : Nat) (a u tid : String) (sc : TurnScript)
    (hc : sc.createThreadResult = Except.ok tid) :
    reset_session s = { thread_id := none, history := [] } ∧
    (ask_agent fuel a sc (reset_session s) u).2.1.thread_id = some tid ∧
    countEv isCreateThread (ask_agent fuel a sc (reset_session s) u).2.2 = 1 ∧
    (some tid ≠ s.thread_id →
      (ask_agent fuel a sc (reset_session s) u).2.1.thread_id ≠ s.thread_id) := by
  obtain ⟨h1, h2⟩ := ask_agent_thread_none fuel a sc (reset_session s) u tid rfl hc
  refine ⟨rfl, h1, h2, fun hne => ?_⟩
  rw [h1]
  exact hne

/-- Witness for C8: resetting a session that held thread t1 and asking
with a stub that returns fresh id t2 stores t2, distinct from t1. -/
theorem claimC8_witness :
    reset_session { thread_id := some "t1", history := [("user", "x")] } =
      { thread_id := none, history := [] } ∧
    (ask_agent 3 "agent" plainTS
      (reset_session { thread_id := some "t1", history := [("user", "x")] })
      "hi").2.1.thread_id = some "t2" ∧
    countEv isCreateThread (ask_agent 3 "agent" plainTS
      (reset_session { thread_id := some "t1", history := [("user", "x")] }) "hi").2.2 = 1 ∧
    (some "t2" ≠ some "t1" →
      (ask_agent 3 "agent" plainTS
        (reset_session { thread_id := some "t1", history := [("user", "x")] })
        "hi").2.1.thread_id ≠ some "t1") :=
  claimC8 { thread_id := some "t1", history := [("user", "x")] } 3 "agent" "hi" "t2"
    plainTS rfl

/-- C9: if either PROJECT_ENDPOINT or AGENT_ID is absent from both the
environment and the secret store, startup shows the configuration error
and halts before any interaction, with no remote operation performed. -/
theorem claimC9 (env secret : String → Option String)
    (h : (env "PROJECT_ENDPOINT" = none ∧ secret "PROJECT_ENDPOINT" = none) ∨
      (env "AGENT_ID" = none ∧ secret "AGENT_ID" = none)) :
    startup env secret =
      { errorShown := true, halted := true, remoteEvents := [] } := by
  unfold startup resolve_config
  rcases h with ⟨h1, h2⟩ | ⟨h1, h2⟩ <;> simp [h1, h2]

/-- Witness for C9: with an empty environment and empty secret store,
startup halts with the error shown and no remote operation. -/
theorem claimC9_witness :
    startup (fun _ => none) (fun _ => none) =
      { errorShown := true, halted := true, remoteEvents := [] } :=
  claimC9 (fun _ => none) (fun _ => none) (Or.inl ⟨rfl, rfl⟩)

/-- C10: on every execution path that does not raise, ask returns a
non-empty string: either the non-empty stripped concatenation of the
text parts or one of the fixed sentinels; the empty string is never
returned. -/
theorem claimC10 (fuel : Nat) (a : String) (sc : TurnScript) (s : SessionState)
    (u r : String) (h : (ask_agent fuel a sc s u).1 = AskOutcome.ok r) :
    r ≠ "" := by
  obtain ⟨msgs, _, rfl⟩ := (ask_agent_inv fuel a sc s u).2.2.2.2 r h
  exact extract_reply_ne msgs

/-- Witness for C10: the stub scenario returns the reply "A\nB", which
is non-empty. -/
theorem claimC10_witness :
    (ask_agent 5 "agent" stubTS { thread_id := none, history := [] } "hi").1 =
      AskOutcome.ok "A\nB" ∧ ("A\nB" : String) ≠ "" :=
  ⟨rfl, claimC10 5 "agent" stubTS { thread_id := none, history := [] } "hi" "A\nB" rfl⟩

end StreamliApp
